import Mathlib

/-!
Shallow embedding of the R3KON chat backend (src/main.py): the response
sanitization pipeline, prompt assembly and token-budget resolution inside
generate_response, and the /api/chat endpoint dispatch. Strings are
modelled as lists of characters. The inference engine is modelled as an
oracle parameter returning either the raw completion text or the message
of a raised exception; the float comparison chinese_chars / total_chars >
0.3 is modelled exactly as the rational comparison 3 * total_chars <
10 * chinese_chars, which agrees with the IEEE double comparison for all
character counts below 2 to the 53rd.
-/

namespace R3kon

/-- Set of characters stripped by the Python str.strip method with no
arguments (the str.isspace character class). -/
def pyIsSpace (c : Char) : Bool :=
  let n := c.toNat
  n == 0x20 || (decide (0x09 ≤ n) && decide (n ≤ 0x0D)) ||
    (decide (0x1C ≤ n) && decide (n ≤ 0x1F)) ||
    n == 0x85 || n == 0xA0 || n == 0x1680 ||
    (decide (0x2000 ≤ n) && decide (n ≤ 0x200A)) ||
    n == 0x2028 || n == 0x2029 || n == 0x202F || n == 0x205F || n == 0x3000

/-- Model of the Python expression s.strip(): drop leading and trailing
whitespace characters. -/
def pyStrip (l : List Char) : List Char :=
  ((l.dropWhile pyIsSpace).reverse.dropWhile pyIsSpace).reverse

/-- Characters of the disallowed block matched by the regex
character class from U+4E00 to U+9FFF in main.py lines 138 and 144. -/
def isCJK (c : Char) : Bool :=
  decide (0x4E00 ≤ c.toNat) && decide (c.toNat ≤ 0x9FFF)

/-- Worker for collapseNewlines: nl counts the newline characters kept at
the end of the output so far; a newline is dropped once two are kept, so a
maximal run of two or more newline characters is shortened to exactly two.
This models the substitution of the regex of two-or-more newlines by two
newlines in main.py line 145. -/
def collapseAux (nl : Nat) : List Char → List Char
  | [] => []
  | c :: rest =>
    if c = '\n' then
      if 2 ≤ nl then collapseAux nl rest
      else c :: collapseAux (nl + 1) rest
    else c :: collapseAux 0 rest

/-- Model of re.sub collapsing runs of two or more newlines into exactly
two newlines (main.py line 145). -/
def collapseNewlines (l : List Char) : List Char :=
  collapseAux 0 l

/-- True when the character list contains two adjacent newline characters,
that is, when the blank-line collapsing regex has a match. -/
def hasDoubleNewline : List Char → Bool
  | [] => false
  | c :: rest => (c == '\n' && rest.head? == some '\n') || hasDoubleNewline rest

/-- A line is blank when stripping whitespace leaves nothing: the Python
test for falsity of line.strip() in main.py line 151. -/
def isBlankLine (l : List Char) : Bool :=
  (pyStrip l).isEmpty

/-- Keep condition of the repetition-removal loop in main.py line 151,
with acc holding the kept lines most recent first, so that acc.take 2 is
the Python slice unique_lines[-2:]. -/
def keepLine (acc : List (List Char)) (line : List Char) : Bool :=
  !isBlankLine line && (acc.isEmpty || !(acc.take 2).contains line)

/-- The repetition-removal loop of main.py lines 149 to 152: drop blank
lines and any line equal to one of the two most recently kept lines. The
accumulator holds kept lines most recent first and is reversed at the
end. -/
def dedupAux (acc : List (List Char)) : List (List Char) → List (List Char)
  | [] => acc.reverse
  | line :: rest =>
    if keepLine acc line then dedupAux (line :: acc) rest
    else dedupAux acc rest

/-- Lines 148 to 154 of main.py: split on newlines, run the
repetition-removal loop, and rejoin with newlines. -/
def cleanLines (s : List Char) : List Char :=
  List.intercalate ['\n'] (dedupAux [] (s.splitOn '\n'))

/-- Fixed apology substituted when the foreign-script ratio is exceeded
(main.py line 142). -/
def APOLOGY : List Char :=
  "I apologize, but I can only respond in English.".toList

/-- Fixed fallback substituted when the final reply is shorter than 10
characters (main.py line 157). -/
def FALLBACK : List Char :=
  "I encountered an issue. Please try rephrasing your question.".toList

/-- Decision of main.py line 141 on an already stripped reply s: the
count of disallowed-block characters exceeds 0.3 of the count of
characters other than a space or a newline (the denominator is the length
after s.replace removes spaces and newlines only), guarded by a positive
denominator. -/
def apologyTriggered (s : List Char) : Bool :=
  let chinese := (s.filter isCJK).length
  let total := (s.filter (fun c => !(c == ' ' || c == '\n'))).length
  decide (0 < total) && decide (3 * total < 10 * chinese)

/-- Lines 144 and 145 of main.py on an already stripped reply: remove all
disallowed-block characters, collapse blank-line runs, and strip again. -/
def stripClean (s : List Char) : List Char :=
  pyStrip (collapseNewlines (s.filter (fun c => !isCJK c)))

/-- The reply after the branch of main.py lines 141 to 145, before
repetition removal: either the fixed apology or the stripped-and-cleaned
text. -/
def preReply (raw : List Char) : List Char :=
  if apologyTriggered (pyStrip raw) then APOLOGY
  else stripClean (pyStrip raw)

/-- The whole sanitization of main.py lines 135 to 157: strip the raw
completion, take the apology or the strip-and-clean branch, remove
repeated and blank lines, and substitute the fallback when the result is
shorter than 10 characters. -/
def sanitize (raw : List Char) : List Char :=
  if (cleanLines (preReply raw)).length < 10 then FALLBACK
  else cleanLines (preReply raw)

/-- Numerator of the foreign-script ratio: count of disallowed-block
characters of the stripped reply (main.py line 138). -/
def cjkCount (raw : List Char) : Nat :=
  ((pyStrip raw).filter isCJK).length

/-- Denominator of the foreign-script ratio as the code computes it:
length of the stripped reply after removing space and newline characters
only (main.py line 139). -/
def codeDenominator (raw : List Char) : Nat :=
  ((pyStrip raw).filter (fun c => !(c == ' ' || c == '\n'))).length

/-- Denominator of the foreign-script ratio as the specification words
it: count of non-whitespace characters of the trimmed reply. This
definition follows the wording of the spec, for comparison with
codeDenominator taken from the source. -/
def specDenominator (raw : List Char) : Nat :=
  ((pyStrip raw).filter (fun c => !pyIsSpace c)).length

/-- One completed exchange supplied in the request history. -/
structure Turn where
  user : List Char
  assistant : List Char
deriving DecidableEq

/-- The recognized generation options of the request config dictionary;
a missing key is modelled by none. -/
structure GenConfig where
  sessionMemory : Option Bool
  responseLength : Option (List Char)
deriving DecidableEq

/-- The config dictionary with neither recognized key present, the
default taken when the request omits the config field. -/
def emptyConfig : GenConfig := ⟨none, none⟩

/-- The fixed system directive prepended to every prompt (main.py lines
32 to 40). -/
def SYSTEM_PROMPT : List Char :=
  ("You are R3KON GPT, a professional cybersecurity assistant.\nCRITICAL RULES:\n1. ALWAYS respond in English only. Never use Chinese or any other language.\n2. Stay strictly on topic related to cybersecurity, programming, or the user\x27s question.\n3. Keep responses clear, concise, and professional.\n4. Use structured formatting: bullet points, numbered lists, or paragraphs as appropriate.\n5. Never repeat yourself or generate repetitive content.\n6. If asked something off-topic, politely redirect to cybersecurity topics.\n").toList

/-- Rendering of one history turn in the transcript: a user-labeled line
followed by an assistant-labeled line (main.py lines 108 and 109). -/
def renderTurn (t : Turn) : List (List Char) :=
  ["User: ".toList ++ t.user, "Assistant: ".toList ++ t.assistant]

/-- The Python slice l[-n:], the at most n last elements of l. -/
def lastN (n : Nat) (l : List Turn) : List Turn :=
  l.drop (l.length - n)

/-- The context_parts list of main.py lines 103 to 112: the system
directive, then, when session memory is on and the history is non-empty,
a transcript header and the rendered last five turns, then the new user
message and the bare assistant label. -/
def contextParts (prompt : List Char) (config : GenConfig)
    (history : List Turn) : List (List Char) :=
  [SYSTEM_PROMPT] ++
    (if config.sessionMemory.getD false && !history.isEmpty then
      "\n--- Recent Conversation ---".toList ::
        (lastN 5 history).flatMap renderTurn
    else []) ++
    [("\nUser: ".toList) ++ prompt, "Assistant:".toList]

/-- The full prompt, the newline join of the context parts (main.py line
114). -/
def buildContext (prompt : List Char) (config : GenConfig)
    (history : List Turn) : List Char :=
  List.intercalate ['\n'] (contextParts prompt config history)

/-- Resolution of the max-token budget from the responseLength option
(main.py lines 117 and 118): dictionary lookup with default medium for a
missing key and default 600 for an unrecognized value. -/
def tokenLimitOf (config : GenConfig) : Nat :=
  let rl := config.responseLength.getD ("medium".toList)
  if rl = "short".toList then 300
  else if rl = "medium".toList then 600
  else if rl = "long".toList then 1000
  else 600

/-- The inference engine as an oracle: from the full prompt and the token
budget it produces either the raw completion text or the message of the
exception it raised. -/
abbrev Engine : Type := List Char → Nat → Except (List Char) (List Char)

/-- Result dictionary of generate_response: a response key or an error
key. -/
inductive GenOut where
  | ok (response : List Char)
  | err (msg : List Char)
deriving DecidableEq

/-- The generate_response function of main.py lines 97 to 163: refuse
when the model is not loaded, build the context, resolve the token
budget, call the engine, and sanitize; an engine exception is caught and
returned as an error dictionary. -/
def generate_response (modelLoaded : Bool) (engine : Engine)
    (prompt : List Char) (config : GenConfig) (history : List Turn) :
    GenOut :=
  if !modelLoaded then .err ("Model not loaded".toList)
  else
    match engine (buildContext prompt config history) (tokenLimitOf config) with
    | .error e => .err e
    | .ok raw => .ok (sanitize raw)

/-- Body of a POST /api/chat request; a missing key is modelled by
none. -/
structure ChatRequest where
  message : Option (List Char)
  config : Option GenConfig
  history : Option (List Turn)

/-- JSON body of the /api/chat response: a response field or an error
field. -/
inductive ChatBody where
  | response (text : List Char)
  | error (msg : List Char)
deriving DecidableEq

/-- The chat endpoint of main.py lines 809 to 828, returning the HTTP
status code and the JSON body: 500 when the model is not loaded, 400 when
the message defaults to or equals the empty string, and otherwise the
generate_response result serialized with the Flask default status 200. -/
def chat (modelLoaded : Bool) (engine : Engine) (req : ChatRequest) :
    Nat × ChatBody :=
  if !modelLoaded then (500, .error ("Model not loaded".toList))
  else
    let message := req.message.getD []
    let config := req.config.getD emptyConfig
    let history := req.history.getD []
    if message.isEmpty then (400, .error ("No message".toList))
    else
      match generate_response modelLoaded engine message config history with
      | .ok r => (200, .response r)
      | .err e => (200, .error e)

/-- Worker for windowDistinct: prev2 holds the at most two preceding
lines, most recent first. -/
def windowDistinctAux (prev2 : List (List Char)) :
    List (List Char) → Bool
  | [] => true
  | l :: rest =>
    !prev2.contains l && windowDistinctAux ((l :: prev2).take 2) rest

/-- No line of the list is equal to one of the two immediately preceding
lines: the hypothesis under which the repetition-removal loop keeps every
non-blank line. -/
def windowDistinct (ls : List (List Char)) : Bool :=
  windowDistinctAux [] ls

/-- An engine that always raises, used as a concrete oracle. -/
def engFail : Engine := fun _ _ => .error ("boom".toList)

/-- An engine that always succeeds, used as a concrete oracle. -/
def engOk : Engine := fun _ _ => .ok ("This is a perfectly fine response.".toList)

/-- Concrete raw reply whose foreign-script ratio is exactly 0.3 under the
code denominator (which counts the tab) but above 0.3 under the spec
denominator (which excludes the tab as whitespace). -/
def cexRatio : List Char := "一一一abc\tdef".toList

/-- Concrete already-latin text of length at least 10 with pairwise
distinct lines but an interior blank line. -/
def cexBlank : List Char := "aaaaaaaaaa\n\nbbbbbbbbbb".toList

/-- Concrete clean text: trimmed, latin only, two distinct non-blank
lines, length at least 10. -/
def cleanText : List Char := "Hello there friend.\nSecond line here.".toList

/-- Concrete history of six turns. -/
def histSix : List Turn :=
  [⟨"q1".toList, "a1".toList⟩, ⟨"q2".toList, "a2".toList⟩,
   ⟨"q3".toList, "a3".toList⟩, ⟨"q4".toList, "a4".toList⟩,
   ⟨"q5".toList, "a5".toList⟩, ⟨"q6".toList, "a6".toList⟩]

/-! Helper lemmas about the pipeline stages. -/

/-- Characters surviving pyStrip come from the original list. -/
theorem mem_pyStrip {l : List Char} {c : Char} (h : c ∈ pyStrip l) : c ∈ l := by
  unfold pyStrip at h
  rw [List.mem_reverse] at h
  have h2 := (List.dropWhile_sublist pyIsSpace).subset h
  rw [List.mem_reverse] at h2
  exact (List.dropWhile_sublist pyIsSpace).subset h2

/-- Characters surviving the newline collapse come from the original
list. -/
theorem mem_collapseAux {c : Char} :
    ∀ (l : List Char) (nl : Nat), c ∈ collapseAux nl l → c ∈ l
  | [], _, h => by simp [collapseAux] at h
  | a :: rest, nl, h => by
    unfold collapseAux at h
    by_cases ha : a = '\n'
    · rw [if_pos ha] at h
      by_cases h2 : 2 ≤ nl
      · rw [if_pos h2] at h
        exact List.mem_cons_of_mem _ (mem_collapseAux rest nl h)
      · rw [if_neg h2] at h
        rcases List.mem_cons.mp h with h3 | h3
        · exact h3 ▸ List.mem_cons_self _ _
        · exact List.mem_cons_of_mem _ (mem_collapseAux rest (nl + 1) h3)
    · rw [if_neg ha] at h
      rcases List.mem_cons.mp h with h3 | h3
      · exact h3 ▸ List.mem_cons_self _ _
      · exact List.mem_cons_of_mem _ (mem_collapseAux rest 0 h3)

/-- Characters surviving collapseNewlines come from the original list. -/
theorem mem_collapseNewlines {c : Char} {l : List Char}
    (h : c ∈ collapseNewlines l) : c ∈ l :=
  mem_collapseAux l 0 h

/-- On a list with no two adjacent newlines the collapse worker is the
identity, provided the pending-newline count allows keeping a leading
newline. -/
theorem collapseAux_eq_self :
    ∀ (l : List Char) (nl : Nat), hasDoubleNewline l = false →
      (l.head? = some '\n' → nl ≤ 1) → collapseAux nl l = l
  | [], _, _, _ => rfl
  | a :: rest, nl, hdd, hh => by
    unfold hasDoubleNewline at hdd
    rw [Bool.or_eq_false_iff] at hdd
    obtain ⟨hd1, hd2⟩ := hdd
    unfold collapseAux
    by_cases ha : a = '\n'
    · have hnl : nl ≤ 1 := hh (by rw [ha]; rfl)
      rw [if_pos ha, if_neg (by omega)]
      congr 1
      apply collapseAux_eq_self rest (nl + 1) hd2
      intro hr
      exfalso
      rw [ha, hr] at hd1
      simp at hd1
    · rw [if_neg ha]
      congr 1
      exact collapseAux_eq_self rest 0 hd2 (fun _ => by omega)

/-- On a list with no two adjacent newlines the blank-line collapse is
the identity. -/
theorem collapseNewlines_eq_self {l : List Char}
    (h : hasDoubleNewline l = false) : collapseNewlines l = l :=
  collapseAux_eq_self l 0 h (fun _ => by omega)

/-- Lines kept by the repetition-removal loop come from the accumulator
or from the input lines. -/
theorem mem_dedupAux {x : List Char} :
    ∀ (lines acc : List (List Char)), x ∈ dedupAux acc lines →
      x ∈ acc ∨ x ∈ lines
  | [], acc, h => by
    left
    exact List.mem_reverse.mp (by simpa [dedupAux] using h)
  | line :: rest, acc, h => by
    unfold dedupAux at h
    by_cases hk : keepLine acc line = true
    · rw [if_pos hk] at h
      rcases mem_dedupAux rest (line :: acc) h with h2 | h2
      · rcases List.mem_cons.mp h2 with h3 | h3
        · right; exact h3 ▸ List.mem_cons_self _ _
        · left; exact h3
      · right; exact List.mem_cons_of_mem _ h2
    · rw [if_neg hk] at h
      rcases mem_dedupAux rest acc h with h2 | h2
      · left; exact h2
      · right; exact List.mem_cons_of_mem _ h2

/-- Every element of a list is an element of its intersperse. -/
theorem mem_intersperse_of_mem {α : Type} {sep x : α} :
    ∀ {l : List α}, x ∈ l → x ∈ l.intersperse sep
  | [], h => by simp at h
  | [a], h => by simpa using h
  | a :: b :: t, h => by
    rw [List.intersperse_cons_cons]
    rcases List.mem_cons.mp h with h1 | h1
    · exact h1 ▸ List.mem_cons_self _ _
    · exact List.mem_cons_of_mem _
        (List.mem_cons_of_mem _ (mem_intersperse_of_mem h1))

/-- An element of an intersperse is the separator or an element of the
list. -/
theorem eq_or_mem_of_mem_intersperse {α : Type} {sep x : α} :
    ∀ {l : List α}, x ∈ l.intersperse sep → x = sep ∨ x ∈ l
  | [], h => by simp [List.intersperse] at h
  | [a], h => by right; simpa using h
  | a :: b :: t, h => by
    rw [List.intersperse_cons_cons] at h
    rcases List.mem_cons.mp h with h1 | h1
    · right; exact h1 ▸ List.mem_cons_self _ _
    · rcases List.mem_cons.mp h1 with h2 | h2
      · left; exact h2
      · rcases eq_or_mem_of_mem_intersperse h2 with h3 | h3
        · left; exact h3
        · right; exact List.mem_cons_of_mem _ h3

/-- A character of a piece appears in the intercalation of the pieces. -/
theorem mem_intercalate_of_mem {α : Type} {sep li : List α}
    {pieces : List (List α)} {c : α} (hli : li ∈ pieces) (hc : c ∈ li) :
    c ∈ List.intercalate sep pieces := by
  unfold List.intercalate
  exact List.mem_flatten.mpr ⟨li, mem_intersperse_of_mem hli, hc⟩

/-- A character of an intercalation comes from the separator or from one
of the pieces. -/
theorem mem_sep_or_piece_of_mem_intercalate {α : Type} {sep : List α}
    {pieces : List (List α)} {c : α}
    (h : c ∈ List.intercalate sep pieces) :
    c ∈ sep ∨ ∃ li, li ∈ pieces ∧ c ∈ li := by
  unfold List.intercalate at h
  rcases List.mem_flatten.mp h with ⟨li, hli, hc⟩
  rcases eq_or_mem_of_mem_intersperse hli with h1 | h1
  · left; exact h1 ▸ hc
  · right; exact ⟨li, h1, hc⟩

/-- Characters surviving the repetition-removal stage are the newline
separator or characters of its input. -/
theorem mem_cleanLines {s : List Char} {c : Char} (h : c ∈ cleanLines s) :
    c = '\n' ∨ c ∈ s := by
  unfold cleanLines at h
  rcases mem_sep_or_piece_of_mem_intercalate h with h1 | ⟨li, hli, hc⟩
  · left; simpa using h1
  · rcases mem_dedupAux _ _ hli with h2 | h2
    · simp at h2
    · right
      have h3 : c ∈ List.intercalate ['\n'] (s.splitOn '\n') :=
        mem_intercalate_of_mem h2 hc
      rwa [List.intercalate_splitOn] at h3

/-- When every line is non-blank and no line repeats one of the two
immediately preceding lines, the repetition-removal loop keeps every
line. -/
theorem dedupAux_no_drop :
    ∀ (lines pre : List (List Char)),
      (∀ l ∈ lines, isBlankLine l = false) →
      windowDistinctAux (pre.take 2) lines = true →
      dedupAux pre lines = pre.reverse ++ lines
  | [], pre, _, _ => by simp [dedupAux]
  | line :: rest, pre, hb, hw => by
    unfold windowDistinctAux at hw
    rw [Bool.and_eq_true] at hw
    obtain ⟨hw1, hw2⟩ := hw
    have hk : keepLine pre line = true := by
      unfold keepLine
      rw [hb line (List.mem_cons_self _ _)]
      simp only [Bool.not_false, Bool.true_and]
      cases pre with
      | nil => simp
      | cons p ps =>
        simp only [List.isEmpty_cons, Bool.false_or]
        exact hw1
    have heq : ((line :: pre).take 2) = ((line :: pre.take 2).take 2) := by
      simp [List.take_take]
    have hrec := dedupAux_no_drop rest (line :: pre)
      (fun l hl => hb l (List.mem_cons_of_mem _ hl)) (by rw [heq]; exact hw2)
    unfold dedupAux
    rw [if_pos hk, hrec, List.reverse_cons, List.append_assoc]
    rfl

/-- The repetition-removal stage leaves the fixed apology unchanged. -/
theorem cleanLines_APOLOGY : cleanLines APOLOGY = APOLOGY := by decide

/-- When the foreign-script ratio is exceeded, the sanitized reply is
exactly the fixed apology. -/
theorem sanitize_of_apology {raw : List Char}
    (h : apologyTriggered (pyStrip raw) = true) : sanitize raw = APOLOGY := by
  unfold sanitize preReply
  rw [h]
  simp only [if_true]
  rw [cleanLines_APOLOGY]
  rw [if_neg (by decide)]

/-- When the foreign-script ratio is not exceeded, the sanitized reply is
the strip-and-clean branch followed by repetition removal and the
short-output check. -/
theorem sanitize_of_no_apology {raw : List Char}
    (h : apologyTriggered (pyStrip raw) = false) :
    sanitize raw =
      (if (cleanLines (stripClean (pyStrip raw))).length < 10 then FALLBACK
       else cleanLines (stripClean (pyStrip raw))) := by
  unfold sanitize preReply
  rw [h]
  simp

/-! Claim theorems. -/

/-- C1 (counterexample): on input lines A, A, B, A the repetition-removal
loop does not return A, B, A as the claim states, because the final A is
equal to one of the two immediately preceding kept lines. -/
theorem C1_counterexample :
    dedupAux [] ["A".toList, "A".toList, "B".toList, "A".toList] ≠
      ["A".toList, "B".toList, "A".toList] := by decide

/-- C1 (amended): on input lines A, A, B, A the repetition-removal loop
keeps A, B only: the second A duplicates the immediately preceding kept
line and the final A duplicates the kept line two positions back. -/
theorem C1_window_dedup :
    dedupAux [] ["A".toList, "A".toList, "B".toList, "A".toList] =
      ["A".toList, "B".toList] := by decide

/-- C2 (counterexample): with the model loaded, a non-empty message, and
an engine that raises, the chat endpoint answers with status 200 carrying
the error text, not with status 500 as the claim states. -/
theorem C2_counterexample :
    chat true engFail ⟨some ("hi".toList), none, none⟩ =
      (200, ChatBody.error ("boom".toList)) ∧ (200 : Nat) ≠ 500 := by
  exact ⟨rfl, by decide⟩

/-- C2 (amended): for every request with the model loaded and a non-empty
message, if the engine raises then the response has status 200 and a body
with an error field holding the underlying error text, because the error
dictionary returned by generate_response is serialized through the
default-status return path. -/
theorem C2_engine_error_status (engine : Engine) (req : ChatRequest)
    (m e : List Char) (hm : req.message = some m) (hne : m.isEmpty = false)
    (he : engine (buildContext m (req.config.getD emptyConfig) (req.history.getD []))
            (tokenLimitOf (req.config.getD emptyConfig)) = .error e) :
    chat true engine req = (200, ChatBody.error e) := by
  unfold chat generate_response
  rw [hm]
  simp only [Option.getD_some, Bool.not_true, Bool.false_eq_true, if_false, hne]
  rw [he]

/-- C2 (witness): concrete instance of the amended claim. -/
theorem C2_engine_error_status_witness :
    chat true engFail ⟨some ("What is a buffer overflow?".toList), none, none⟩ =
      (200, ChatBody.error ("boom".toList)) :=
  C2_engine_error_status engFail _ _ _ rfl rfl rfl

/-- C3 (counterexample): a request whose message is the empty string is
answered with status 500, not 400, when the model is not loaded. -/
theorem C3_counterexample :
    (chat false engOk ⟨some [], none, none⟩).1 = 500 ∧ (500 : Nat) ≠ 400 :=
  ⟨rfl, by decide⟩

/-- C3 (amended): with the model loaded, a request whose message is the
empty string is answered 400 with no engine call (the answer does not
depend on the engine), regardless of the other fields; with the model not
loaded the same request is answered 500, because the loaded check
precedes the message check. -/
theorem C3_empty_message (engine engine2 : Engine) (req : ChatRequest)
    (h : req.message = some []) :
    chat true engine req = (400, ChatBody.error ("No message".toList)) ∧
    chat false engine req = (500, ChatBody.error ("Model not loaded".toList)) ∧
    chat true engine req = chat true engine2 req := by
  refine ⟨?_, rfl, ?_⟩
  · unfold chat
    rw [h]
    simp
  · unfold chat
    rw [h]
    simp

/-- C3 (witness): concrete instance of the amended claim. -/
theorem C3_empty_message_witness :
    chat true engOk ⟨some [], some emptyConfig, none⟩ =
      (400, ChatBody.error ("No message".toList)) ∧
    chat false engOk ⟨some [], some emptyConfig, none⟩ =
      (500, ChatBody.error ("Model not loaded".toList)) ∧
    chat true engOk ⟨some [], some emptyConfig, none⟩ =
      chat true engFail ⟨some [], some emptyConfig, none⟩ :=
  C3_empty_message engOk engFail ⟨some [], some emptyConfig, none⟩ rfl

/-- C4 (counterexample): on a reply that is three disallowed-block
characters, six latin characters and one interior tab, the ratio by the
claim denominator (non-whitespace characters) strictly exceeds 0.3, yet
the code does not substitute the apology, because its denominator removes
only spaces and newlines and therefore counts the tab. -/
theorem C4_counterexample :
    0 < specDenominator cexRatio ∧
    3 * specDenominator cexRatio < 10 * cjkCount cexRatio ∧
    sanitize cexRatio ≠ APOLOGY := by
  exact ⟨by decide, by decide, by decide⟩

/-- C4 (amended): the ratio denominator counts the characters of the
trimmed reply other than spaces and newlines (other whitespace such as a
tab is counted); the whole reply becomes the fixed apology exactly when
the disallowed-block count strictly exceeds 0.3 of that denominator, and
at a ratio of exactly 0.3, or any smaller one, the strip-and-clean branch
runs instead. -/
theorem C4_threshold (raw : List Char) :
    (0 < codeDenominator raw → 3 * codeDenominator raw < 10 * cjkCount raw →
      sanitize raw = APOLOGY) ∧
    (10 * cjkCount raw ≤ 3 * codeDenominator raw →
      sanitize raw =
        (if (cleanLines (stripClean (pyStrip raw))).length < 10 then FALLBACK
         else cleanLines (stripClean (pyStrip raw)))) := by
  constructor
  · intro h1 h2
    apply sanitize_of_apology
    unfold codeDenominator at h1 h2
    unfold cjkCount at h2
    simp only [apologyTriggered, Bool.and_eq_true, decide_eq_true_eq]
    exact ⟨h1, h2⟩
  · intro h
    apply sanitize_of_no_apology
    unfold codeDenominator at h
    unfold cjkCount at h
    simp only [apologyTriggered]
    have h2 : decide (3 * ((pyStrip raw).filter
        (fun c => !(c == ' ' || c == '\n'))).length <
        10 * ((pyStrip raw).filter isCJK).length) = false := by
      rw [decide_eq_false_iff_not]
      omega
    rw [h2, Bool.and_false]

/-- C4 (witness): concrete instances of both branches of the amended
claim: a fully foreign reply becomes the apology, and a reply at a ratio
of exactly 0.3 takes the strip-and-clean branch. -/
theorem C4_threshold_witness :
    sanitize ("一二三四".toList) = APOLOGY ∧
    sanitize ("一一一abcdefg".toList) =
      (if (cleanLines (stripClean (pyStrip ("一一一abcdefg".toList)))).length < 10
       then FALLBACK
       else cleanLines (stripClean (pyStrip ("一一一abcdefg".toList)))) :=
  ⟨(C4_threshold ("一二三四".toList)).1 (by decide) (by decide),
   (C4_threshold ("一一一abcdefg".toList)).2 (by decide)⟩

/-- C5: sanitization is total by construction and never yields the empty
string, and whenever the cleaned result is shorter than 10 characters the
fixed fallback is substituted. -/
theorem C5_total_nonempty (raw : List Char) :
    sanitize raw ≠ [] ∧
    ((cleanLines (preReply raw)).length < 10 → sanitize raw = FALLBACK) := by
  constructor
  · unfold sanitize
    split
    · decide
    · next h =>
      intro hemp
      apply h
      rw [hemp]
      decide
  · intro h
    unfold sanitize
    rw [if_pos h]

/-- C5 (witness): the empty input is cleaned to something below 10
characters, and the sanitized result is the non-empty fallback. -/
theorem C5_total_nonempty_witness :
    sanitize [] ≠ [] ∧ sanitize [] = FALLBACK :=
  ⟨(C5_total_nonempty []).1, (C5_total_nonempty []).2 (by decide)⟩

/-- C6: for every raw engine output the sanitized reply has length at
least 10 and contains no character of the disallowed block. -/
theorem C6_clean_reply (raw : List Char) :
    10 ≤ (sanitize raw).length ∧ ∀ c ∈ sanitize raw, isCJK c = false := by
  have hap : ∀ c ∈ APOLOGY, isCJK c = false := by
    intro c hc
    have h := List.all_eq_true.mp (show APOLOGY.all (fun c => !isCJK c) = true by decide) c hc
    simpa using h
  have hfb : ∀ c ∈ FALLBACK, isCJK c = false := by
    intro c hc
    have h := List.all_eq_true.mp (show FALLBACK.all (fun c => !isCJK c) = true by decide) c hc
    simpa using h
  have hpre : ∀ c ∈ preReply raw, isCJK c = false := by
    unfold preReply
    split
    · exact hap
    · intro c hc
      unfold stripClean at hc
      have h1 := mem_pyStrip hc
      have h2 := mem_collapseNewlines h1
      have h3 := List.mem_filter.mp h2
      simpa using h3.2
  constructor
  · unfold sanitize
    split
    · decide
    · next h => omega
  · unfold sanitize
    split
    · exact hfb
    · intro c hc
      rcases mem_cleanLines hc with h | h
      · rw [h]; decide
      · exact hpre c h

/-- C7 (counterexample): a string that is latin only (in fact ASCII),
whose lines are pairwise distinct within the window of two, of length
at least 10, is still changed by sanitization when it contains a blank
line, so the claim as stated fails. -/
theorem C7_counterexample :
    cexBlank.all (fun c => decide (c.toNat ≤ 0x7F)) = true ∧
    windowDistinct (cexBlank.splitOn '\n') = true ∧
    10 ≤ cexBlank.length ∧
    sanitize cexBlank ≠ cexBlank := by
  exact ⟨by decide, by decide, by decide, by decide⟩

/-- C7 (amended): sanitization is the identity, and hence idempotent, on
every string that is trimmed, contains no disallowed-block character, has
no two adjacent newlines, has no blank or whitespace-only line, repeats
no line within the preceding window of two, and has length at least
10. -/
theorem C7_idempotent (x : List Char)
    (h1 : pyStrip x = x)
    (h2 : ∀ c ∈ x, isCJK c = false)
    (h3 : hasDoubleNewline x = false)
    (h4 : ∀ l ∈ x.splitOn '\n', isBlankLine l = false)
    (h5 : windowDistinct (x.splitOn '\n') = true)
    (h6 : 10 ≤ x.length) :
    sanitize x = x ∧ sanitize (sanitize x) = x := by
  have echin : x.filter isCJK = [] :=
    List.filter_eq_nil_iff.mpr (fun c hc => by simp [h2 c hc])
  have eap : apologyTriggered (pyStrip x) = false := by
    rw [h1]
    unfold apologyTriggered
    rw [echin]
    simp
  have efil : x.filter (fun c => !isCJK c) = x :=
    List.filter_eq_self.mpr (fun c hc => by simp [h2 c hc])
  have ecol : collapseNewlines x = x := collapseNewlines_eq_self h3
  have estrip : stripClean (pyStrip x) = x := by
    rw [h1]
    unfold stripClean
    rw [efil, ecol]
    exact h1
  have eded : dedupAux [] (x.splitOn '\n') = x.splitOn '\n' := by
    have h := dedupAux_no_drop (x.splitOn '\n') [] h4
      (by simpa [windowDistinct] using h5)
    simpa using h
  have ecl : cleanLines x = x := by
    unfold cleanLines
    rw [eded]
    exact List.intercalate_splitOn x '\n'
  have key : sanitize x = x := by
    unfold sanitize preReply
    rw [eap]
    simp only [Bool.false_eq_true, if_false]
    rw [estrip, ecl, if_neg (by omega)]
  exact ⟨key, by rw [key, key]⟩

/-- C7 (witness): concrete instance of the amended claim on clean
two-line text. -/
theorem C7_idempotent_witness :
    sanitize cleanText = cleanText ∧
    sanitize (sanitize cleanText) = cleanText :=
  C7_idempotent cleanText (by decide) (by decide) (by decide) (by decide)
    (by decide) (by decide)

/-- C8: with session memory on and more than five turns of history, the
context parts are exactly the directive, the transcript header, the last
five turns in original order each rendered as a user line then an
assistant line, and the final user message and assistant label; the last
five turns are a suffix of length five, earlier turns do not influence
the parts at all; with session memory off or an empty history no
transcript section appears. -/
theorem C8_transcript_window (msg : List Char) (config : GenConfig)
    (history : List Turn) :
    (config.sessionMemory.getD false = true → 5 < history.length →
      contextParts msg config history =
        [SYSTEM_PROMPT, "\n--- Recent Conversation ---".toList] ++
          (lastN 5 history).flatMap renderTurn ++
          ["\nUser: ".toList ++ msg, "Assistant:".toList] ∧
      (lastN 5 history).length = 5 ∧
      history.take (history.length - 5) ++ lastN 5 history = history ∧
      contextParts msg config history =
        contextParts msg config (lastN 5 history)) ∧
    ((config.sessionMemory.getD false = false ∨ history = []) →
      contextParts msg config history =
        [SYSTEM_PROMPT, "\nUser: ".toList ++ msg, "Assistant:".toList]) := by
  constructor
  · intro hm hlen
    have hne : history.isEmpty = false := by
      cases history with
      | nil => simp at hlen
      | cons a t => rfl
    have h5 : (lastN 5 history).length = 5 := by
      unfold lastN
      rw [List.length_drop]
      omega
    have hne2 : (lastN 5 history).isEmpty = false := by
      cases hc : lastN 5 history with
      | nil => rw [hc] at h5; simp at h5
      | cons a t => rfl
    refine ⟨?_, h5, ?_, ?_⟩
    · unfold contextParts
      rw [hm, hne]
      simp
    · unfold lastN
      exact List.take_append_drop _ _
    · have hdrop : lastN 5 (lastN 5 history) = lastN 5 history := by
        unfold lastN
        rw [List.length_drop]
        have : history.length - (history.length - 5) - 5 = 0 := by omega
        rw [List.drop_drop]
        congr 1
        omega
      unfold contextParts
      rw [hm, hne, hne2, hdrop]
  · intro hoff
    unfold contextParts
    rcases hoff with hoff | hoff
    · rw [hoff]
      simp
    · rw [hoff]
      simp

/-- C8 (witness): concrete instance with six turns of history and with
session memory off. -/
theorem C8_transcript_window_witness :
    (lastN 5 histSix).length = 5 ∧
    histSix.take (histSix.length - 5) ++ lastN 5 histSix = histSix ∧
    contextParts [] ⟨some false, none⟩ histSix =
      [SYSTEM_PROMPT, "\nUser: ".toList ++ [], "Assistant:".toList] :=
  ⟨((C8_transcript_window [] ⟨some true, none⟩ histSix).1 rfl (by decide)).2.1,
   ((C8_transcript_window [] ⟨some true, none⟩ histSix).1 rfl (by decide)).2.2.1,
   (C8_transcript_window [] ⟨some false, none⟩ histSix).2 (Or.inl rfl)⟩

/-- C9: the resolved max-token budget is 300 for short, 600 for medium,
1000 for long, and 600 for any other or missing responseLength value;
resolution is total by construction. -/
theorem C9_token_budget (config : GenConfig) :
    (config.responseLength = some ("short".toList) → tokenLimitOf config = 300) ∧
    (config.responseLength = some ("medium".toList) → tokenLimitOf config = 600) ∧
    (config.responseLength = some ("long".toList) → tokenLimitOf config = 1000) ∧
    (config.responseLength = none → tokenLimitOf config = 600) ∧
    (∀ rl, config.responseLength = some rl → rl ≠ "short".toList →
      rl ≠ "medium".toList → rl ≠ "long".toList → tokenLimitOf config = 600) := by
  refine ⟨?_, ?_, ?_, ?_, ?_⟩
  · intro h
    unfold tokenLimitOf
    rw [h]
    decide
  · intro h
    unfold tokenLimitOf
    rw [h]
    decide
  · intro h
    unfold tokenLimitOf
    rw [h]
    decide
  · intro h
    unfold tokenLimitOf
    rw [h]
    decide
  · intro rl h hs hm hl
    unfold tokenLimitOf
    rw [h]
    simp only [Option.getD_some]
    rw [if_neg hs, if_neg hm, if_neg hl]

/-- C9 (witness): concrete budgets for each recognized tier, an
unrecognized value, and a missing key. -/
theorem C9_token_budget_witness :
    tokenLimitOf ⟨none, some ("short".toList)⟩ = 300 ∧
    tokenLimitOf ⟨none, some ("medium".toList)⟩ = 600 ∧
    tokenLimitOf ⟨none, some ("long".toList)⟩ = 1000 ∧
    tokenLimitOf ⟨none, some ("verbose".toList)⟩ = 600 ∧
    tokenLimitOf ⟨none, none⟩ = 600 :=
  ⟨(C9_token_budget ⟨none, some ("short".toList)⟩).1 rfl,
   (C9_token_budget ⟨none, some ("medium".toList)⟩).2.1 rfl,
   (C9_token_budget ⟨none, some ("long".toList)⟩).2.2.1 rfl,
   (C9_token_budget ⟨none, some ("verbose".toList)⟩).2.2.2.2 _ rfl
     (by decide) (by decide) (by decide),
   (C9_token_budget ⟨none, none⟩).2.2.2.1 rfl⟩

/-- C10: a request that omits the message key entirely is answered 400
exactly like an empty message, with no engine call; and omitted config
and history fields behave as the empty record and the empty list. -/
theorem C10_missing_fields (engine engine2 : Engine) (req : ChatRequest)
    (h : req.message = none) :
    chat true engine req = (400, ChatBody.error ("No message".toList)) ∧
    chat true engine req = chat true engine2 req ∧
    (∀ m (eng : Engine), chat true eng ⟨some m, none, none⟩ =
      chat true eng ⟨some m, some emptyConfig, some []⟩) := by
  refine ⟨?_, ?_, fun m eng => rfl⟩
  · unfold chat
    rw [h]
    simp
  · unfold chat
    rw [h]
    simp

/-- C10 (witness): concrete instance with the message key missing. -/
theorem C10_missing_fields_witness :
    chat true engOk ⟨none, none, none⟩ =
      (400, ChatBody.error ("No message".toList)) ∧
    chat true engOk ⟨none, none, none⟩ = chat true engFail ⟨none, none, none⟩ :=
  ⟨(C10_missing_fields engOk engFail ⟨none, none, none⟩ rfl).1,
   (C10_missing_fields engOk engFail ⟨none, none, none⟩ rfl).2.1⟩

end R3kon
